import Mathlib

/-!
Shallow embedding of the book-browsing widget of this repository.

The repository holds two variants of the same script: src/scripts.js and the
unnamed file src/unnamed/part_000.  Both are modelled here.  The static catalog
(books, authors, genres, BOOKS_PER_PAGE) lives in data.js, which the scripts
import; it is treated as an external read-only input, so every operation is
parameterised by a Catalog value.

DOM effects are modelled as pure transformations of an explicit AppState that
records the list container contents, the empty-state message class, the
show-more button, the overlays and the theme color tokens.  JS strings are
Lean Strings; the handful of JS string primitives used by the code (trim,
toLowerCase, includes, the year of a date string) are modelled over the
character list of the string.
-/

namespace BookConnect

/-- One record of the external catalog (data.js), as consumed by both scripts:
id, title, author id, image URL, description, published date string, genre ids. -/
structure Book where
  id : String
  title : String
  author : String
  image : String
  description : String
  published : String
  genres : List String
deriving DecidableEq

/-- The search-form data read by the filter code: genre, author (either an id or
the sentinel "any") and a free-text title. -/
structure Filters where
  genre : String
  author : String
  title : String
deriving DecidableEq

/-- The external catalog contract (data.js exports consumed at line 1 of both
scripts): book list, author and genre id-to-name maps, page size. -/
structure Catalog where
  books : List Book
  authors : List (String × String)
  genres : List (String × String)
  BOOKS_PER_PAGE : Nat
deriving DecidableEq

/-- A preview button as built by the rendering code: class name, the
data-preview attribute carrying the book id, and the inner content
(image source, title text, resolved author name). -/
structure PreviewEl where
  className : String
  dataPreview : String
  imageSrc : String
  titleText : String
  authorText : String
deriving DecidableEq

/-- An option element of a dropdown: its value attribute and its text. -/
structure OptionEl where
  value : String
  text : String
deriving DecidableEq

/-- The mutable page-level state touched by the scripts: the two module
variables (page, matches) plus the DOM pieces the handlers write to. -/
structure AppState where
  page : Nat
  matches' : List Book
  listItems : List PreviewEl
  messageShown : Bool
  listButtonDisabled : Bool
  listButtonRemaining : Int
  searchOverlayOpen : Bool
  settingsOverlayOpen : Bool
  searchFormOpen : Bool
  detailOpen : Bool
  detailBlurSrc : String
  detailImageSrc : String
  detailTitle : String
  detailSubtitle : String
  detailDescription : String
  colorDark : String
  colorLight : String
  themeSelector : String
deriving DecidableEq

/-- Model of the JS String.prototype.trim call: drop whitespace from both ends. -/
def jsTrim (s : String) : String :=
  String.mk (((s.data.dropWhile Char.isWhitespace).reverse.dropWhile Char.isWhitespace).reverse)

/-- Model of the JS String.prototype.toLowerCase call. -/
def jsToLower (s : String) : String :=
  String.mk (s.data.map Char.toLower)

/-- Model of haystack.toLowerCase().includes(needle.toLowerCase()), the title
test of both filter implementations. -/
def containsLower (haystack needle : String) : Bool :=
  decide (List.IsInfix (jsToLower needle).data (jsToLower haystack).data)

/-- Model of Array.prototype.slice(a, b) for 0 <= a <= b. -/
def jsSlice (l : List α) (a b : Nat) : List α :=
  (l.drop a).take (b - a)

/-- Model of the JS object index authors[id] as it is rendered into a template
string: the display name when the id is present, the text undefined otherwise. -/
def jsIndex (m : List (String × String)) (k : String) : String :=
  (m.lookup k).getD ("undefined")

/-- Model of new Date(s).getFullYear() for the ISO-style date strings of the
catalog: the numeric value of the leading digits of the string. -/
def getFullYear (s : String) : Nat :=
  (s.data.takeWhile Char.isDigit).foldl (fun acc c => acc * 10 + (c.toNat - 48)) 0

/-- The genre loop of the scripts.js submit handler (lines 93-98): genreMatch
starts as filters.genre === "any" and the loop breaks as soon as it is true,
otherwise sets it when a genre of the book equals the criteria genre. -/
def genreLoopScan (target : String) : Bool → List String → Bool
  | genreMatch, [] => genreMatch
  | genreMatch, g :: gs =>
    if genreMatch then genreMatch
    else genreLoopScan target (if g == target then true else genreMatch) gs

/-- The inclusion condition of the scripts.js submit handler (lines 100-104):
title test, author test and the loop-computed genre flag, conjoined in that
order. -/
def includeBook (filters : Filters) (book : Book) : Bool :=
  ((jsTrim filters.title == ("") || containsLower book.title filters.title) &&
    (filters.author == ("any") || book.author == filters.author)) &&
  genreLoopScan filters.genre (filters.genre == ("any")) book.genres

/-- The filter loop of the scripts.js submit handler (lines 92-107): walk the
full catalog in order and push every included book. -/
def searchLoop (filters : Filters) : List Book → List Book
  | [] => []
  | book :: rest =>
    if includeBook filters book then book :: searchLoop filters rest
    else searchLoop filters rest

/-- filterBooks of part_000 (lines 100-107): books.filter with the genre,
author and title predicates.  The JS closure reads the imported books; here the
list is an explicit argument. -/
def filterBooks (bs : List Book) (filters : Filters) : List Book :=
  bs.filter fun book =>
    ((filters.genre == ("any") || book.genres.contains filters.genre) &&
      (filters.author == ("any") || book.author == filters.author)) &&
    (jsTrim filters.title == ("") || containsLower book.title filters.title)

/-- Modelled from the spec (section 4.2): the per-record predicate in the
spec's own words - genreMatch is criteria.genre == "any" or the criteria genre
is among the record's genres, authorMatch is criteria.author == "any" or equal
to the record's author, titleMatch is a blank trimmed criteria title or the
lowercased record title containing the lowercased criteria title; a record is
included iff all three hold. -/
def specFilterPred (criteria : Filters) (record : Book) : Bool :=
  ((criteria.genre == ("any") || record.genres.contains criteria.genre) &&
    (criteria.author == ("any") || record.author == criteria.author)) &&
  (jsTrim criteria.title == ("") || containsLower record.title criteria.title)

/-- createBookPreviewElement (lines 12-26, identical in both files): a button
with class preview, a data-preview attribute carrying the book id, and inner
content with the image, the title and the resolved author name. -/
def createBookPreviewElement (authorsMap : List (String × String)) (book : Book) : PreviewEl :=
  { className := "preview", dataPreview := book.id, imageSrc := book.image,
    titleText := book.title, authorText := jsIndex authorsMap book.author }

/-- The inline preview construction of the scripts.js search submit handler
(lines 121-139): same class, data-preview attribute and inner content. -/
def previewOfSearch (authorsMap : List (String × String)) (book : Book) : PreviewEl :=
  { className := "preview", dataPreview := book.id, imageSrc := book.image,
    titleText := book.title, authorText := jsIndex authorsMap book.author }

/-- The inline preview construction of the scripts.js list-button click handler
(lines 156-174): same class, data-preview attribute and inner content. -/
def previewOfMore (authorsMap : List (String × String)) (book : Book) : PreviewEl :=
  { className := "preview", dataPreview := book.id, imageSrc := book.image,
    titleText := book.title, authorText := jsIndex authorsMap book.author }

/-- renderInitialBooks (lines 32-38 of both files): append the previews of the
first BOOKS_PER_PAGE books to the list container. -/
def renderInitialBooks (cat : Catalog) (booksToRender : List Book)
    (listItems : List PreviewEl) : List PreviewEl :=
  listItems ++ (jsSlice booksToRender 0 cat.BOOKS_PER_PAGE).map (createBookPreviewElement cat.authors)

/-- populateDropdown (lines 48-62 of both files), as a function of its three
declared parameters: append to the dropdown a default option with value any
and the default label, followed by one option per entry of the options map in
order. -/
def populateDropdown (dropdown : List OptionEl) (options : List (String × String))
    (defaultLabel : String) : List OptionEl :=
  dropdown ++ ({ value := "any", text := defaultLabel } ::
    options.map fun p => { value := p.1, text := p.2 })

/-- A JS runtime error, as far as the startup code can raise one. -/
inductive JsErr
  | typeError (msg : String)
deriving DecidableEq

/-- The callee position of a JS tagged template: either a function value or a
plain object.  The genres and authors exports of data.js are plain id-to-name
objects (spec section 3), never functions. -/
inductive Callee
  | functionVal
  | objectVal (entries : List (String × String))
deriving DecidableEq

/-- Evaluating a JS tagged template whose callee is a plain object throws a
TypeError; only a function callee can produce a value. -/
def Callee.taggedCall : Callee → Except JsErr (List (String × String))
  | .functionVal => .ok []
  | .objectVal _ => .error (.typeError ("is not a function"))

/-- Lines 64-65 of both files: populateDropdown(querySelector(...), genres
followed immediately by a template literal).  The missing comma makes the
second argument a tagged-template application of the plain object genres
(line 65 does the same with authors, and its selector string also lacks the
closing bracket).  The evaluation of the argument throws before
populateDropdown is ever entered, so neither dropdown receives any option and
the rest of the module (initTheme and every addEventListener call) never runs. -/
def startupDropdowns (cat : Catalog) : Except JsErr (List OptionEl × List OptionEl) := do
  let g ← (Callee.objectVal cat.genres).taggedCall
  let a ← (Callee.objectVal cat.authors).taggedCall
  .ok (populateDropdown [] g ("undefined"), populateDropdown [] a ("undefined"))

/-- The body shared by every applyTheme call: set the dark and light color
tokens from the night flag (applyTheme lines 71-75 of both files computes the
flag as theme === night). -/
def applyThemeCore (isNight : Bool) (s : AppState) : AppState :=
  { s with
    colorDark := if isNight then "255, 255, 255" else "10, 10, 20",
    colorLight := if isNight then "10, 10, 20" else "255, 255, 255" }

/-- applyTheme (lines 71-75 of both files). -/
def applyTheme (theme : String) (s : AppState) : AppState :=
  applyThemeCore (theme == ("night")) s

/-- initTheme (lines 77-82 of both files): pick night or day from the platform
preference, set the theme selector, apply the theme. -/
def initTheme (prefersDark : Bool) (s : AppState) : AppState :=
  let theme := if prefersDark then "night" else "day"
  applyTheme theme { s with themeSelector := theme }

/-- The theme field of the submitted form data, as used by the part_000 search
form handler: the form carries no theme field, so the value is typically
absent; theme === night is false for an absent value. -/
def themeOfForm : Option String → Bool
  | some t => t == ("night")
  | none => false

/-- The search-form submit handler of part_000 (lines 86-93): read theme from
the form data, apply it, and set the open property of the search form element
itself to false.  It never touches page, matches or the settings overlay. -/
def searchSubmitPart (s : AppState) (formTheme : Option String) : AppState :=
  { applyThemeCore (themeOfForm formTheme) s with searchFormOpen := false }

/-- The search-form submit handler of scripts.js (lines 86-151): filter the
full catalog, reset page to 1, reassign matches, toggle the empty-state
message, repaint the first page of results, recompute the show-more button,
and close the search overlay. -/
def searchSubmit (cat : Catalog) (s : AppState) (filters : Filters) : AppState :=
  let result := searchLoop filters cat.books
  let remaining : Int := (result.length : Int) - (1 : Int) * (cat.BOOKS_PER_PAGE : Int)
  { s with
    page := 1,
    matches' := result,
    messageShown := decide (result.length < 1),
    listItems := (jsSlice result 0 cat.BOOKS_PER_PAGE).map (previewOfSearch cat.authors),
    listButtonDisabled := decide (remaining < 1),
    listButtonRemaining := if remaining > 0 then remaining else 0,
    searchOverlayOpen := false }

/-- updateShowMoreButton of part_000 (lines 126-134): recompute the remaining
count from the given total and the current page, disable the button when it is
not positive, and display max(remaining, 0). -/
def updateShowMoreButton (cat : Catalog) (totalBooks : Nat) (s : AppState) : AppState :=
  let remainingBooks : Int := (totalBooks : Int) - (s.page : Int) * (cat.BOOKS_PER_PAGE : Int)
  { s with
    listButtonDisabled := decide (remainingBooks ≤ 0),
    listButtonRemaining := if remainingBooks > 0 then remainingBooks else 0 }

/-- The list-button click handler of scripts.js (lines 153-178): append the
previews of matches.slice(page * BOOKS_PER_PAGE, (page + 1) * BOOKS_PER_PAGE)
and increment page.  It does not touch the show-more button itself. -/
def showMoreScripts (cat : Catalog) (s : AppState) : AppState :=
  { s with
    listItems := s.listItems ++
      (jsSlice s.matches' (s.page * cat.BOOKS_PER_PAGE) ((s.page + 1) * cat.BOOKS_PER_PAGE)).map
        (previewOfMore cat.authors),
    page := s.page + 1 }

/-- The list-button click handler of part_000 (lines 137-145): append the same
slice, increment page, then recompute the show-more button from
matches.length. -/
def showMorePart (cat : Catalog) (s : AppState) : AppState :=
  let s1 : AppState := { s with
    listItems := s.listItems ++
      (jsSlice s.matches' (s.page * cat.BOOKS_PER_PAGE) ((s.page + 1) * cat.BOOKS_PER_PAGE)).map
        (createBookPreviewElement cat.authors),
    page := s.page + 1 }
  updateShowMoreButton cat s1.matches'.length s1

/-- updateBookList of part_000 (lines 113-120).  No call site exists in the
repository; kept for reference.  Note it repaints the first page without
resetting the page variable. -/
def updateBookList (cat : Catalog) (filteredBooks : List Book) (s : AppState) : AppState :=
  let s1 : AppState := { s with
    listItems := (jsSlice filteredBooks 0 cat.BOOKS_PER_PAGE).map (createBookPreviewElement cat.authors) }
  updateShowMoreButton cat filteredBooks.length s1

/-- The inner book scan of the scripts.js list-items click handler
(lines 190-193): result starts null, the loop breaks once it is set, and a
book whose id equals the carried preview id sets it. -/
def bookScanLoop (target : String) : Option Book → List Book → Option Book
  | result, [] => result
  | result, b :: bs =>
    if result.isSome then result
    else bookScanLoop target (if b.id == target then some b else result) bs

/-- displayBookDetails of part_000 (lines 171-178), identical to the
population block of the scripts.js click handler (lines 199-206): open the
detail overlay, use the image both as blurred backdrop and as foreground,
set the title, the composed subtitle authorName (publicationYear), and the
description. -/
def displayBookDetails (cat : Catalog) (book : Book) (s : AppState) : AppState :=
  { s with
    detailOpen := true,
    detailBlurSrc := book.image,
    detailImageSrc := book.image,
    detailTitle := book.title,
    detailSubtitle := jsIndex cat.authors book.author ++ " (" ++
      toString (getFullYear book.published) ++ ")",
    detailDescription := book.description }

/-- The list-items click handler of scripts.js (lines 180-207).  The clicked
argument is the preview id carried by the innermost preview ancestor of the
click target, none when the click lands outside any preview.  A null scan
result leaves the state untouched. -/
def listClick (cat : Catalog) (s : AppState) (clicked : Option String) : AppState :=
  match clicked with
  | none => s
  | some id =>
    match bookScanLoop id none cat.books with
    | none => s
    | some active => displayBookDetails cat active s

/-- The list-items click handler of part_000 (lines 180-186): closest preview
id, then books.find on the full catalog, then displayBookDetails. -/
def listClickPart (cat : Catalog) (s : AppState) (clicked : Option String) : AppState :=
  match clicked with
  | none => s
  | some id =>
    match cat.books.find? (fun b => b.id == id) with
    | none => s
    | some selectedBook => displayBookDetails cat selectedBook s

/-- The header-search click handler of part_000 (lines 148-151). -/
def headerSearchClick (s : AppState) : AppState :=
  { s with searchOverlayOpen := true }

/-- The header-settings click handler of part_000 (lines 154-156). -/
def headerSettingsClick (s : AppState) : AppState :=
  { s with settingsOverlayOpen := true }

/-- The search-cancel click handler of part_000 (lines 159-161). -/
def searchCancelClick (s : AppState) : AppState :=
  { s with searchOverlayOpen := false }

/-- The settings-cancel click handler of part_000 (lines 163-165). -/
def settingsCancelClick (s : AppState) : AppState :=
  { s with settingsOverlayOpen := false }

/-- The elements event handlers are attached to in either file. -/
inductive Target
  | searchForm
  | settingsForm
  | listButton
  | listItemsEl
  | headerSearch
  | headerSettings
  | searchCancel
  | settingsCancel
deriving DecidableEq

/-- The two event kinds used by the scripts. -/
inductive Ev
  | submit
  | click
deriving DecidableEq

/-- The (element, event) pairs scripts.js attaches handlers to. -/
def wiredScripts : List (Target × Ev) :=
  [(.searchForm, .submit), (.listButton, .click), (.listItemsEl, .click)]

/-- The (element, event) pairs part_000 attaches handlers to. -/
def wiredPart : List (Target × Ev) :=
  [(.searchForm, .submit), (.listButton, .click), (.headerSearch, .click),
   (.headerSettings, .click), (.searchCancel, .click), (.settingsCancel, .click),
   (.listItemsEl, .click)]

/-- The module state after line 40 of either file: page is 1, matches is the
full catalog, and renderInitialBooks has appended the first page of previews
to the empty list container.  The remaining fields hold their initial DOM
values. -/
def initState (cat : Catalog) : AppState :=
  { page := 1,
    matches' := cat.books,
    listItems := renderInitialBooks cat cat.books [],
    messageShown := false,
    listButtonDisabled := false,
    listButtonRemaining := 0,
    searchOverlayOpen := false,
    settingsOverlayOpen := false,
    searchFormOpen := false,
    detailOpen := false,
    detailBlurSrc := "",
    detailImageSrc := "",
    detailTitle := "",
    detailSubtitle := "",
    detailDescription := "",
    colorDark := "",
    colorLight := "",
    themeSelector := "" }

/-- The states reachable through the wired handlers of either file, starting
from the initial paint followed by initTheme. -/
inductive Reach (cat : Catalog) : AppState → Prop
  | init (pd : Bool) : Reach cat (initTheme pd (initState cat))
  | searchS {s : AppState} (f : Filters) : Reach cat s → Reach cat (searchSubmit cat s f)
  | searchP {s : AppState} (t : Option String) : Reach cat s → Reach cat (searchSubmitPart s t)
  | moreS {s : AppState} : Reach cat s → Reach cat (showMoreScripts cat s)
  | moreP {s : AppState} : Reach cat s → Reach cat (showMorePart cat s)
  | clickItem {s : AppState} (c : Option String) : Reach cat s → Reach cat (listClick cat s c)
  | openSearch {s : AppState} : Reach cat s → Reach cat (headerSearchClick s)
  | openSettings {s : AppState} : Reach cat s → Reach cat (headerSettingsClick s)
  | cancelSearch {s : AppState} : Reach cat s → Reach cat (searchCancelClick s)
  | cancelSettings {s : AppState} : Reach cat s → Reach cat (settingsCancelClick s)

/-- A two-book catalog used by the concrete witnesses. -/
def b1 : Book :=
  { id := "b1", title := "Alpha", author := "a1", image := "img1",
    description := "desc1", published := "1990-01-01", genres := ["g1"] }

/-- A second concrete book. -/
def b2 : Book :=
  { id := "b2", title := "Beta", author := "a2", image := "img2",
    description := "desc2", published := "2001-05-06", genres := ["g1", "g2"] }

/-- A concrete catalog with two books and page size 1. -/
def cat0 : Catalog :=
  { books := [b1, b2],
    authors := [("a1", "Ann"), ("a2", "Bob")],
    genres := [("g1", "Fiction"), ("g2", "Drama")],
    BOOKS_PER_PAGE := 1 }

/-- The startup state of the concrete catalog. -/
def stW : AppState := initTheme false (initState cat0)

/-- A filter that matches everything. -/
def fAny : Filters := { genre := "any", author := "any", title := "" }

/-- A filter whose title matches no book of cat0. -/
def fNone : Filters := { genre := "any", author := "any", title := "zzz" }

/-- The concrete state after submitting the match-all filter: page 1, two
matches, one preview shown, show-more label 1. -/
def stC3 : AppState := searchSubmit cat0 stW fAny

/-- A concrete state whose page is 5, for the page-reset check. -/
def st5 : AppState := { stW with page := 5 }

end BookConnect

namespace BookConnect

lemma genreLoopScan_eq (t : String) (b : Bool) (gs : List String) :
    genreLoopScan t b gs = (b || gs.contains t) := by
  induction gs generalizing b with
  | nil => simp [genreLoopScan]
  | cons g gs ih =>
    cases b with
    | true => simp [genreLoopScan]
    | false =>
      simp only [genreLoopScan, Bool.false_eq_true, if_false, ih, Bool.false_or,
        List.contains_cons]
      by_cases hg : g = t
      · subst hg; simp
      · have hg2 : ¬ t = g := fun h => hg h.symm
        have h1 : (g == t) = false := by simp [hg]
        have h2 : (t == g) = false := by simp [hg2]
        simp [h1, h2]

lemma includeBook_eq_spec (f : Filters) (b : Book) :
    includeBook f b = specFilterPred f b := by
  unfold includeBook specFilterPred
  rw [genreLoopScan_eq]
  simp only [Bool.and_assoc, Bool.and_comm, Bool.and_left_comm]

lemma searchLoop_eq_filter (f : Filters) (bs : List Book) :
    searchLoop f bs = bs.filter (includeBook f) := by
  induction bs with
  | nil => rfl
  | cons b rest ih =>
    simp only [searchLoop, ih, List.filter_cons]

lemma filterBooks_eq_spec (bs : List Book) (f : Filters) :
    filterBooks bs f = bs.filter (specFilterPred f) := rfl

lemma searchLoop_eq_filterBooks (f : Filters) (bs : List Book) :
    searchLoop f bs = filterBooks bs f := by
  rw [searchLoop_eq_filter, filterBooks_eq_spec]
  exact List.filter_congr fun b _ => includeBook_eq_spec f b

/-- C1: for every catalog and every FilterCriteria, both filter
implementations (the scripts.js submit-handler loop and filterBooks of
part_000) return exactly the records satisfying the three spec predicates -
genre is "any" or a member of the record's genres, author is "any" or equal to
the record's author, title is blank after trimming or contained
case-insensitively in the record title - and the result is a subsequence of
the catalog in the catalog's original order. -/
theorem filter_returns_exactly_matching_records (bs : List Book) (f : Filters) :
    filterBooks bs f = bs.filter (specFilterPred f) ∧
    searchLoop f bs = bs.filter (specFilterPred f) ∧
    List.Sublist (filterBooks bs f) bs ∧
    (∀ b : Book, b ∈ filterBooks bs f ↔ (b ∈ bs ∧ specFilterPred f b = true)) := by
  refine ⟨filterBooks_eq_spec bs f, ?_, ?_, ?_⟩
  · rw [searchLoop_eq_filterBooks, filterBooks_eq_spec]
  · exact List.filter_sublist bs
  · intro b
    rw [filterBooks_eq_spec]
    exact List.mem_filter

lemma bookScanLoop_some (t : String) (x : Book) (bs : List Book) :
    bookScanLoop t (some x) bs = some x := by
  cases bs <;> simp [bookScanLoop]

lemma bookScanLoop_eq_find (t : String) (bs : List Book) :
    bookScanLoop t none bs = bs.find? (fun b => b.id == t) := by
  induction bs with
  | nil => rfl
  | cons b rest ih =>
    by_cases h : (b.id == t) = true
    · simp [bookScanLoop, h, bookScanLoop_some, List.find?_cons_of_pos, h]
    · have h2 : (b.id == t) = false := by simpa using h
      simp [bookScanLoop, h2, ih, List.find?_cons_of_neg, h]

lemma listClick_preserves (cat : Catalog) (s : AppState) (c : Option String) :
    (listClick cat s c).page = s.page ∧
    (listClick cat s c).matches' = s.matches' ∧
    (listClick cat s c).listItems = s.listItems ∧
    (listClick cat s c).messageShown = s.messageShown ∧
    (listClick cat s c).listButtonDisabled = s.listButtonDisabled ∧
    (listClick cat s c).listButtonRemaining = s.listButtonRemaining ∧
    (listClick cat s c).searchOverlayOpen = s.searchOverlayOpen ∧
    (listClick cat s c).settingsOverlayOpen = s.settingsOverlayOpen := by
  cases c with
  | none => exact ⟨rfl, rfl, rfl, rfl, rfl, rfl, rfl, rfl⟩
  | some id =>
    cases h : bookScanLoop id none cat.books <;>
      simp [listClick, h, displayBookDetails]

/-- C2: the scripts.js search submit handler sets page to 1 regardless of its
prior value and reassigns matches wholesale to the freshly computed filter
result; but the search-form submit handler of part_000 is the mis-attached
theme handler, which leaves page and matches untouched - here evaluated at a
state with page 5, where the claim demands page 1. -/
theorem search_submit_page_reset_bug :
    (searchSubmitPart st5 (some ("night"))).page = 5 ∧
    (searchSubmitPart st5 (some ("night"))).matches' = st5.matches' ∧
    ((5 : Nat) ≠ 1) ∧
    (∀ (cat : Catalog) (s : AppState) (f : Filters),
      (searchSubmit cat s f).page = 1 ∧
      (searchSubmit cat s f).matches' = filterBooks cat.books f) := by
  refine ⟨rfl, rfl, by decide, ?_⟩
  intro cat s f
  exact ⟨rfl, searchLoop_eq_filterBooks f cat.books⟩

/-- C5: no settings-form submit handler exists in either file; the
theme-applying submit handler of part_000 is attached to the search form, and
it sets the search form element's own open property to false while leaving the
settings overlay untouched.  It does apply the submitted theme value, and an
absent theme field (the search form has none) yields the day colors. -/
theorem settings_form_theme_mis_wired :
    ((Target.settingsForm, Ev.submit) ∉ wiredScripts) ∧
    ((Target.settingsForm, Ev.submit) ∉ wiredPart) ∧
    ((Target.searchForm, Ev.submit) ∈ wiredPart) ∧
    (∀ (s : AppState) (t : Option String),
      (searchSubmitPart s t).settingsOverlayOpen = s.settingsOverlayOpen ∧
      (searchSubmitPart s t).searchFormOpen = false) ∧
    (∀ s : AppState,
      (searchSubmitPart s (some ("night"))).colorDark = "255, 255, 255" ∧
      (searchSubmitPart s none).colorDark = "10, 10, 20") := by
  refine ⟨by decide, by decide, by decide, ?_, ?_⟩
  · intro s t; exact ⟨rfl, rfl⟩
  · intro s; exact ⟨rfl, rfl⟩

/-- C8: the startup dropdown population throws.  The missing comma at
lines 64-65 turns the second argument into a tagged-template application of
the plain object genres (resp. authors), which raises a TypeError before
populateDropdown runs, so no dropdown is ever populated; populateDropdown
itself, called with its three declared parameters, would produce exactly the
claimed option list: a default option with value any and the given label,
then one option per map entry in order. -/
theorem dropdown_population_call_site_throws (cat : Catalog) :
    startupDropdowns cat = .error (.typeError ("is not a function")) ∧
    (∀ (m : List (String × String)) (lbl : String),
      populateDropdown [] m lbl =
        ({ value := "any", text := lbl } : OptionEl) ::
          m.map (fun p => ({ value := p.1, text := p.2 } : OptionEl))) := by
  exact ⟨rfl, fun m lbl => rfl⟩

/-- C9: the three rendering code paths of scripts.js - createBookPreviewElement
used by the initial render, the inline construction of the search submit
handler, and the inline construction of the list-button click handler - build
the same preview element for the same book, and mapping any of them over a
rendered slice gives the same element list, so collapsing them into a single
renderPage function changes no behavior. -/
theorem preview_render_paths_equivalent (am : List (String × String)) (book : Book) :
    createBookPreviewElement am book = previewOfSearch am book ∧
    previewOfSearch am book = previewOfMore am book ∧
    (∀ (bs : List Book) (n : Nat),
      (jsSlice bs 0 n).map (createBookPreviewElement am) =
        (jsSlice bs 0 n).map (previewOfSearch am) ∧
      (jsSlice bs 0 n).map (createBookPreviewElement am) =
        (jsSlice bs 0 n).map (previewOfMore am)) :=
  ⟨rfl, rfl, fun _ _ => ⟨rfl, rfl⟩⟩

/-- C10: a click on the list container leaves page, matches, the rendered
previews, the message, the show-more button and the search and settings
overlays unchanged; the state is either untouched or equal to the detail
overlay being populated from some catalog book. -/
theorem list_click_frame_effect (cat : Catalog) (s : AppState) (c : Option String) :
    (listClick cat s c).page = s.page ∧
    (listClick cat s c).matches' = s.matches' ∧
    (listClick cat s c).listItems = s.listItems ∧
    (listClick cat s c).messageShown = s.messageShown ∧
    (listClick cat s c).listButtonDisabled = s.listButtonDisabled ∧
    (listClick cat s c).listButtonRemaining = s.listButtonRemaining ∧
    (listClick cat s c).searchOverlayOpen = s.searchOverlayOpen ∧
    (listClick cat s c).settingsOverlayOpen = s.settingsOverlayOpen ∧
    (listClick cat s c = s ∨
      ∃ b : Book, b ∈ cat.books ∧ listClick cat s c = displayBookDetails cat b s) := by
  obtain ⟨h1, h2, h3, h4, h5, h6, h7, h8⟩ := listClick_preserves cat s c
  refine ⟨h1, h2, h3, h4, h5, h6, h7, h8, ?_⟩
  cases c with
  | none => exact Or.inl rfl
  | some id =>
    cases h : bookScanLoop id none cat.books with
    | none => exact Or.inl (by simp [listClick, h])
    | some b =>
      refine Or.inr ⟨b, ?_, by simp [listClick, h]⟩
      have hf : cat.books.find? (fun x => x.id == id) = some b := by
        rw [← bookScanLoop_eq_find]; exact h
      exact List.mem_of_find?_eq_some hf

/-- C3 counterexample: one show-more activation of the scripts.js handler, at
the concrete state reached by submitting the match-all filter over the
two-book catalog with page size 1.  The control keeps showing 1 although the
recomputed remaining count after the activation is 0, so the handler does not
recompute the remaining count shown on the show-more control. -/
theorem show_more_label_not_recomputed :
    (showMoreScripts cat0 stC3).listButtonRemaining = stC3.listButtonRemaining ∧
    (showMoreScripts cat0 stC3).listButtonRemaining = 1 ∧
    (((showMoreScripts cat0 stC3).matches'.length : Int) -
        ((showMoreScripts cat0 stC3).page : Int) * (cat0.BOOKS_PER_PAGE : Int) = 0) ∧
    ((showMoreScripts cat0 stC3).listButtonRemaining ≠
      (if (((showMoreScripts cat0 stC3).matches'.length : Int) -
            ((showMoreScripts cat0 stC3).page : Int) * (cat0.BOOKS_PER_PAGE : Int)) > 0
        then (((showMoreScripts cat0 stC3).matches'.length : Int) -
            ((showMoreScripts cat0 stC3).page : Int) * (cat0.BOOKS_PER_PAGE : Int))
        else 0)) := by
  decide

/-- C3 as amended: every show-more activation of either handler appends to the
rendered list exactly matches.slice(page * BOOKS_PER_PAGE,
(page + 1) * BOOKS_PER_PAGE) - the empty slice once matches is exhausted,
never failing - and increments page by exactly 1, and no record of a fixed
matches is rendered twice across pages; the part_000 handler recomputes the
remaining count shown on the show-more control, while the scripts.js handler
leaves the control unchanged. -/
theorem show_more_advance_amended (cat : Catalog) (s : AppState)
    (hids : s.listItems.map PreviewEl.dataPreview =
      (s.matches'.take (s.page * cat.BOOKS_PER_PAGE)).map Book.id)
    (hnd : (s.matches'.map Book.id).Nodup) :
    (showMoreScripts cat s).page = s.page + 1 ∧
    (showMorePart cat s).page = s.page + 1 ∧
    (showMoreScripts cat s).listItems = s.listItems ++
      (jsSlice s.matches' (s.page * cat.BOOKS_PER_PAGE)
        ((s.page + 1) * cat.BOOKS_PER_PAGE)).map (previewOfMore cat.authors) ∧
    (s.matches'.length ≤ s.page * cat.BOOKS_PER_PAGE →
      (showMoreScripts cat s).listItems = s.listItems) ∧
    (showMoreScripts cat s).listItems.map PreviewEl.dataPreview =
      (s.matches'.take ((s.page + 1) * cat.BOOKS_PER_PAGE)).map Book.id ∧
    ((showMoreScripts cat s).listItems.map PreviewEl.dataPreview).Nodup ∧
    (showMoreScripts cat s).listButtonRemaining = s.listButtonRemaining ∧
    (showMoreScripts cat s).listButtonDisabled = s.listButtonDisabled ∧
    (showMorePart cat s).listButtonRemaining =
      (if ((s.matches'.length : Int) - ((s.page + 1 : Nat) : Int) * (cat.BOOKS_PER_PAGE : Int)) > 0
        then ((s.matches'.length : Int) - ((s.page + 1 : Nat) : Int) * (cat.BOOKS_PER_PAGE : Int))
        else 0) ∧
    (showMorePart cat s).listItems = s.listItems ++
      (jsSlice s.matches' (s.page * cat.BOOKS_PER_PAGE)
        ((s.page + 1) * cat.BOOKS_PER_PAGE)).map (createBookPreviewElement cat.authors) ∧
    (s.matches'.length ≤ s.page * cat.BOOKS_PER_PAGE →
      (showMorePart cat s).listItems = s.listItems) ∧
    (showMorePart cat s).listItems.map PreviewEl.dataPreview =
      (s.matches'.take ((s.page + 1) * cat.BOOKS_PER_PAGE)).map Book.id ∧
    ((showMorePart cat s).listItems.map PreviewEl.dataPreview).Nodup := by
  have hmap : ∀ l : List Book,
      (l.map (previewOfMore cat.authors)).map PreviewEl.dataPreview = l.map Book.id := by
    intro l; rw [List.map_map]; rfl
  have hmapC : ∀ l : List Book,
      (l.map (createBookPreviewElement cat.authors)).map PreviewEl.dataPreview =
        l.map Book.id := by
    intro l; rw [List.map_map]; rfl
  have hsub : (s.page + 1) * cat.BOOKS_PER_PAGE - s.page * cat.BOOKS_PER_PAGE =
      cat.BOOKS_PER_PAGE := by
    rw [Nat.succ_mul, Nat.add_sub_cancel_left]
  have hpre : (showMoreScripts cat s).listItems.map PreviewEl.dataPreview =
      (s.matches'.take ((s.page + 1) * cat.BOOKS_PER_PAGE)).map Book.id := by
    show (s.listItems ++ _).map PreviewEl.dataPreview = _
    rw [List.map_append, hids, hmap, ← List.map_append]
    congr 1
    rw [Nat.succ_mul, List.take_add]
    congr 1
    unfold jsSlice
    rw [Nat.add_sub_cancel_left]
  have hpreP : (showMorePart cat s).listItems.map PreviewEl.dataPreview =
      (s.matches'.take ((s.page + 1) * cat.BOOKS_PER_PAGE)).map Book.id := by
    show (s.listItems ++ _).map PreviewEl.dataPreview = _
    rw [List.map_append, hids, hmapC, ← List.map_append]
    congr 1
    rw [Nat.succ_mul, List.take_add]
    congr 1
    unfold jsSlice
    rw [Nat.add_sub_cancel_left]
  refine ⟨rfl, rfl, rfl, ?_, hpre, ?_, rfl, rfl, rfl, rfl, ?_, hpreP, ?_⟩
  · intro hle
    show s.listItems ++ _ = s.listItems
    unfold jsSlice
    rw [List.drop_eq_nil_of_le hle]
    simp
  · rw [hpre, List.map_take]
    exact hnd.sublist (List.take_sublist _ _)
  · intro hle
    show s.listItems ++ _ = s.listItems
    unfold jsSlice
    rw [List.drop_eq_nil_of_le hle]
    simp
  · rw [hpreP, List.map_take]
    exact hnd.sublist (List.take_sublist _ _)

/-- C3 amended witness: the startup state of the concrete catalog satisfies
the prefix and distinctness hypotheses; one activation of either handler
advances the page and keeps the rendered records distinct. -/
theorem show_more_advance_amended_witness :
    (showMoreScripts cat0 stW).page = stW.page + 1 ∧
    ((showMoreScripts cat0 stW).listItems.map PreviewEl.dataPreview).Nodup ∧
    ((showMorePart cat0 stW).listItems.map PreviewEl.dataPreview).Nodup := by
  obtain ⟨h1, -, -, -, -, h6, -, -, -, -, -, -, h13⟩ :=
    show_more_advance_amended cat0 stW (by decide) (by decide)
  exact ⟨h1, h6, h13⟩

/-- C4: after any render call along any execution of the wired handlers of
either file - the initial paint, a filter repaint, a paged append, a theme
application, an overlay toggle or a detail click - the number of preview
elements in the list container equals min(BOOKS_PER_PAGE * page,
matches.length) for the current pagination state. -/
theorem rendered_count_invariant (cat : Catalog) (s : AppState) (h : Reach cat s) :
    s.listItems.length = min (cat.BOOKS_PER_PAGE * s.page) s.matches'.length := by
  induction h with
  | init pd =>
    simp [initTheme, applyTheme, applyThemeCore, initState, renderInitialBooks, jsSlice,
      Nat.mul_one]
  | searchS f hprev ih =>
    simp [searchSubmit, jsSlice, Nat.mul_one]
  | searchP t hprev ih => exact ih
  | moreS hprev ih =>
    rename_i s0
    simp only [showMoreScripts, List.length_append, List.length_map, jsSlice,
      List.length_take, List.length_drop, ih]
    have e1 : (s0.page + 1) * cat.BOOKS_PER_PAGE =
        s0.page * cat.BOOKS_PER_PAGE + cat.BOOKS_PER_PAGE := Nat.succ_mul _ _
    have e2 : cat.BOOKS_PER_PAGE * (s0.page + 1) =
        cat.BOOKS_PER_PAGE * s0.page + cat.BOOKS_PER_PAGE := by ring
    have e3 : cat.BOOKS_PER_PAGE * s0.page = s0.page * cat.BOOKS_PER_PAGE :=
      Nat.mul_comm _ _
    rw [e1, e2, e3]
    generalize s0.page * cat.BOOKS_PER_PAGE = q
    omega
  | moreP hprev ih =>
    rename_i s0
    simp only [showMorePart, updateShowMoreButton, List.length_append, List.length_map,
      jsSlice, List.length_take, List.length_drop, ih]
    have e1 : (s0.page + 1) * cat.BOOKS_PER_PAGE =
        s0.page * cat.BOOKS_PER_PAGE + cat.BOOKS_PER_PAGE := Nat.succ_mul _ _
    have e2 : cat.BOOKS_PER_PAGE * (s0.page + 1) =
        cat.BOOKS_PER_PAGE * s0.page + cat.BOOKS_PER_PAGE := by ring
    have e3 : cat.BOOKS_PER_PAGE * s0.page = s0.page * cat.BOOKS_PER_PAGE :=
      Nat.mul_comm _ _
    rw [e1, e2, e3]
    generalize s0.page * cat.BOOKS_PER_PAGE = q
    omega
  | clickItem c hprev ih =>
    rename_i s0
    obtain ⟨hp, hm, hi, -, -, -, -, -⟩ := listClick_preserves cat s0 c
    rw [hp, hm, hi]
    exact ih
  | openSearch hprev ih => exact ih
  | openSettings hprev ih => exact ih
  | cancelSearch hprev ih => exact ih
  | cancelSettings hprev ih => exact ih

/-- C4 witness: the concrete state after the initial paint and one show-more
activation is reachable, and its rendered count equals the stated minimum. -/
theorem rendered_count_invariant_witness :
    (showMoreScripts cat0 stW).listItems.length =
      min (cat0.BOOKS_PER_PAGE * (showMoreScripts cat0 stW).page)
        (showMoreScripts cat0 stW).matches'.length :=
  rendered_count_invariant cat0 (showMoreScripts cat0 stW)
    (Reach.moreS (Reach.init false))

/-- C6: a filter submission through the scripts.js handler never fails; the
empty-state message class is shown exactly when the filter result is empty
(and removed whenever it is non-empty), and for an empty result the list
container is cleared to zero preview elements. -/
theorem empty_result_message_toggle (cat : Catalog) (s : AppState) (f : Filters) :
    ((searchSubmit cat s f).messageShown = true ↔ filterBooks cat.books f = []) ∧
    (filterBooks cat.books f = [] → (searchSubmit cat s f).listItems = []) ∧
    (filterBooks cat.books f ≠ [] → (searchSubmit cat s f).messageShown = false) := by
  have hres : searchLoop f cat.books = filterBooks cat.books f :=
    searchLoop_eq_filterBooks f cat.books
  refine ⟨?_, ?_, ?_⟩
  · show decide ((searchLoop f cat.books).length < 1) = true ↔ _
    rw [hres]
    simp [Nat.lt_one_iff, List.length_eq_zero]
  · intro hempty
    show ((jsSlice (searchLoop f cat.books) 0 cat.BOOKS_PER_PAGE).map _) = []
    rw [hres, hempty]
    simp [jsSlice]
  · intro hne
    show decide ((searchLoop f cat.books).length < 1) = false
    rw [hres]
    simp [Nat.lt_one_iff, List.length_eq_zero, hne]

/-- C6 witness: the title zzz matches no book of the concrete catalog; the
message becomes visible and the container is emptied. -/
theorem empty_result_message_toggle_witness :
    (searchSubmit cat0 stW fNone).messageShown = true ∧
    (searchSubmit cat0 stW fNone).listItems = [] := by
  have h := empty_result_message_toggle cat0 stW fNone
  exact ⟨h.1.mpr (by decide), h.2.1 (by decide)⟩

/-- C7: a click outside any preview is a no-op; a carried id matching no
catalog book is a silent no-op; the inner loop is a first-match linear scan
over the full catalog, also used by the part_000 handler through books.find;
and a found record opens the detail overlay with its image as both backdrop
and foreground, its title, the composed subtitle authorName
(publicationYear), and its description. -/
theorem list_click_detail_lookup (cat : Catalog) (s : AppState) :
    listClick cat s none = s ∧
    (∀ id : String, (∀ b ∈ cat.books, b.id ≠ id) → listClick cat s (some id) = s) ∧
    (∀ c : Option String, listClickPart cat s c = listClick cat s c) ∧
    (∀ (id : String) (b : Book),
      cat.books.find? (fun x => x.id == id) = some b →
      b ∈ cat.books ∧
      listClick cat s (some id) =
        { s with
          detailOpen := true,
          detailBlurSrc := b.image,
          detailImageSrc := b.image,
          detailTitle := b.title,
          detailSubtitle := jsIndex cat.authors b.author ++ " (" ++
            toString (getFullYear b.published) ++ ")",
          detailDescription := b.description }) := by
  refine ⟨rfl, ?_, ?_, ?_⟩
  · intro id hnone
    have hfind : cat.books.find? (fun x => x.id == id) = none := by
      rw [List.find?_eq_none]
      intro b hb
      simpa using hnone b hb
    simp [listClick, bookScanLoop_eq_find, hfind]
  · intro c
    cases c with
    | none => rfl
    | some id => simp [listClick, listClickPart, bookScanLoop_eq_find]
  · intro id b hfind
    refine ⟨List.mem_of_find?_eq_some hfind, ?_⟩
    simp [listClick, bookScanLoop_eq_find, hfind, displayBookDetails]

/-- C7 witness: in the concrete catalog a click outside any preview and a
click carrying an unknown id are no-ops, while the id b1 opens the overlay
with the composed subtitle of the first book. -/
theorem list_click_detail_lookup_witness :
    listClick cat0 stW none = stW ∧
    listClick cat0 stW (some ("nope")) = stW ∧
    (listClick cat0 stW (some ("b1"))).detailOpen = true ∧
    (listClick cat0 stW (some ("b1"))).detailSubtitle = "Ann (1990)" := by
  have h := list_click_detail_lookup cat0 stW
  have hfind : cat0.books.find? (fun x => x.id == ("b1")) = some b1 := by decide
  have h4 := (h.2.2.2 ("b1") b1 hfind).2
  refine ⟨h.1, h.2.1 ("nope") (by decide), ?_, ?_⟩
  · rw [h4]
  · rw [h4]
    decide

end BookConnect
